import Mathlib

/-!
Verification of the EMS-Backend budget-evaluation contract.

The embedding below translates the Go data model (the entity structs and
their tables) and the composite handler `(*Server).PayExpense` into Lean.
Monetary columns are declared `NUMERIC` in the DDL, so amounts, limits and
ratios are modelled as exact rationals.  Each `QueryRow(...).Scan(...)` call
is modelled as a pure lookup over the table lists together with an injected
store-level fault flag, since the Go handler branches only on `err != nil`
and a query can fail either because no row matched or because the underlying
store failed.  The handler is translated as a function from the store state,
the fault flags and the raw path variable to the HTTP response it writes
plus the trace of store operations it issued.
-/

namespace EMS

/-- Calendar instants reach the evaluation only through their year component
(`time.Time.Year()` in Go, `EXTRACT(YEAR FROM created_at)` in SQL), so an
instant is modelled as its calendar year together with the remaining
sub-year component of the instant. -/
structure Time where
  year : Int
  subYear : Nat
deriving DecidableEq

/-- Go struct `User` (src/server/user.go); `UserRole` is a Go string type. -/
structure User where
  id : Int
  name : String
  unitID : String
  roleID : String
  password : String
deriving DecidableEq

/-- Go struct `Unit` (src/unnamed/part_001). -/
structure Unit where
  name : String
  managerID : Int
deriving DecidableEq

/-- Go struct `ExpenseCategory` (src/unnamed/part_003). -/
structure ExpenseCategory where
  name : String
deriving DecidableEq

/-- Go struct `ExpenseRequest` (src/unnamed/part_001). -/
structure ExpenseRequest where
  id : Int
  userID : Int
  unitID : String
  amount : ℚ
  category : String
  createdAt : Time
  isFinalized : Bool
deriving DecidableEq

/-- Go struct `ExpenseActivity` (src/unnamed/part_001); `ExpenseState` is a
Go string type. -/
structure ExpenseActivity where
  id : Int
  expenseID : Int
  currentState : String
  feedback : String
  createdBy : Int
  createdAt : Time
deriving DecidableEq

/-- Go struct `PaidExpense` (src/server/paidExpense.go). -/
structure PaidExpense where
  id : Int
  expenseID : Int
  unitID : String
  category : String
  amount : ℚ
  createdAt : Time
deriving DecidableEq

/-- Go struct `Budget` (src/unnamed/part_001); the table's composite key is
(unit_id, expense_category, year). -/
structure Budget where
  unitID : String
  category : String
  year : Int
  budgetLimit : ℚ
  thresholdRatio : ℚ
deriving DecidableEq

/-- Go struct `Announcement` (src/unnamed/part_002). -/
structure Announcement where
  id : Int
  message : String
  receiverID : Int
  createdBy : Int
  createdAt : Time
deriving DecidableEq

/-- The relational store: one list of rows per table, one table per entity,
as created by each entity's `CreateTableIfNotExists`. -/
structure DB where
  user : List User
  unit : List Unit
  expense_category : List ExpenseCategory
  expense_request : List ExpenseRequest
  expense_activity : List ExpenseActivity
  paid_expense : List PaidExpense
  budget : List Budget
  announcement : List Announcement
deriving DecidableEq

/-- Go `strconv.Atoi`: an optional sign followed by one or more ASCII
digits, rejected when empty, non-numeric, or outside the 64-bit int range. -/
def goAtoi (s : String) : Option Int :=
  let parseDigits : List Char → Option Nat := fun ds =>
    if ds = [] then none
    else if ds.all (fun c => c.isDigit) then
      some (ds.foldl (fun acc c => acc * 10 + (c.toNat - 48)) 0)
    else none
  let signed : Int × List Char :=
    match s.data with
    | '+' :: rest => (1, rest)
    | '-' :: rest => (-1, rest)
    | ds => (1, ds)
  match parseDigits signed.2 with
  | none => none
  | some n =>
    let v : Int := signed.1 * n
    if -(2 ^ 63) ≤ v ∧ v ≤ 2 ^ 63 - 1 then some v else none

/-- Mirrors `SELECT id, expense_id, unit_id, category, amount, created_at
FROM paid_expense WHERE id = $1` under `QueryRow`: the first row with the
given id, if any. -/
def findPaid (rows : List PaidExpense) (id : Int) : Option PaidExpense :=
  rows.find? (fun p => p.id == id)

/-- Mirrors `SELECT created_at FROM expense_request WHERE id = $1`: only the
creation-timestamp column is selected and scanned. -/
def findRequestCreatedAt (rows : List ExpenseRequest) (id : Int) : Option Time :=
  (rows.find? (fun req => req.id == id)).map (fun req => req.createdAt)

/-- Mirrors `SELECT ... FROM budget WHERE unit_id = $1 AND expense_category
= $2 AND year = $3` under `QueryRow`. -/
def findBudget (rows : List Budget) (unitID category : String) (year : Int) :
    Option Budget :=
  rows.find? (fun b => b.unitID == unitID && b.category == category && b.year == year)

/-- Row set of the aggregate `SELECT COALESCE(SUM(amount), 0) FROM
paid_expense WHERE unit_id = $1 AND category = $2 AND EXTRACT(YEAR FROM
created_at) = $3`: each row is filtered on its own creation year. -/
def spentRows (rows : List PaidExpense) (unitID category : String) (year : Int) :
    List PaidExpense :=
  rows.filter (fun p => p.unitID == unitID && p.category == category &&
    p.createdAt.year == year)

/-- Value of the aggregate query; `COALESCE` turns an empty row set into 0. -/
def sumSpent (rows : List PaidExpense) (unitID category : String) (year : Int) : ℚ :=
  ((spentRows rows unitID category year).map (fun p => p.amount)).sum

/-- Why a single query can fail from the handler's point of view: the row
set is empty (`sql.ErrNoRows` out of `QueryRow(...).Scan`), or the
underlying store fails (connection or query error). -/
inductive ScanErr
  | noRows
  | storeFailure
deriving DecidableEq

/-- Outcome of `QueryRow(...).Scan(...)`: a store-level fault masks the
data; otherwise an absent row is `ErrNoRows` and a present row is scanned. -/
def scan {α : Type} (fault : Bool) (row : Option α) : Except ScanErr α :=
  if fault then .error .storeFailure
  else
    match row with
    | none => .error .noRows
    | some v => .ok v

/-- Store-level fault injection for the four queries `PayExpense` issues, in
program order. -/
structure Faults where
  onPaidFetch : Bool
  onRequestFetch : Bool
  onBudgetFetch : Bool
  onSumQuery : Bool
deriving DecidableEq

/-- The fault-free store: every query reaches the data. -/
def Faults.clear : Faults := ⟨false, false, false, false⟩

/-- The budget block of the success response, mirroring the inner JSON
object literal of step 6 of the handler. -/
structure BudgetBlock where
  year : Int
  limit : ℚ
  threshold : ℚ
  spent : ℚ
  rest : ℚ
  budgetMax : ℚ
deriving DecidableEq

/-- The success body: the scanned `PaidExpense` plus the budget block. -/
structure PayBody where
  paidExpense : PaidExpense
  budget : BudgetBlock
deriving DecidableEq

/-- An HTTP response as a handler determines it: `http.Error` with a status
code and a plain-text message and no JSON body, a 204 with no body, or a 200
JSON success body. -/
inductive Response
  | err (status : Nat) (message : String)
  | noContent
  | ok (body : PayBody)
deriving DecidableEq

/-- Store interactions issued through the shared `*sql.DB` handle by the
handlers modelled here: `query...` operations read, `exec...` operations
write. -/
inductive StoreOp
  | queryPaidByID (id : Int)
  | queryRequestCreatedAt (id : Int)
  | queryBudget (unitID category : String) (year : Int)
  | querySumSpent (unitID category : String) (year : Int)
  | execDeleteAnnouncement (id : Int)
deriving DecidableEq

/-- Whether a store operation only reads. -/
def StoreOp.isRead : StoreOp → Bool
  | .execDeleteAnnouncement _ => false
  | _ => true

/-- Effect of one store operation on the stored state: queries leave every
table untouched; `DELETE FROM announcement WHERE id = $1` removes the
matching rows. -/
def applyStoreOp (db : DB) : StoreOp → DB
  | .execDeleteAnnouncement id =>
      { db with announcement := db.announcement.filter (fun a => !(a.id == id)) }
  | _ => db

/-- Final store state after a trace of operations. -/
def runOps (db : DB) (ops : List StoreOp) : DB :=
  ops.foldl applyStoreOp db

/-- Shallow embedding of `(*Server).PayExpense` (src/unnamed/part_002,
lines 280-374), registered as `POST /expense_requests/{id}/pay`.  Returns
the response the handler writes together with the trace of store operations
it issued, in order.  Each numbered step matches the source: 1 fetch the
`PaidExpense` (any scan error yields 404), 2 fetch the linked request's
`created_at` and take its year, 3 fetch the budget by (unit, category,
year), 4 sum prior payments (the aggregate always returns a row thanks to
`COALESCE`, so only a store fault can fail it), 5 compute rest and
budgetMax, 6 respond. -/
def payExpense (db : DB) (f : Faults) (idStr : String) : Response × List StoreOp :=
  match goAtoi idStr with
  | none => (.err 400 ("Invalid ID"), [])
  | some id =>
    match scan f.onPaidFetch (findPaid db.paid_expense id) with
    | .error _ => (.err 404 ("Paid expense not found"), [.queryPaidByID id])
    | .ok paid =>
      match scan f.onRequestFetch
          (findRequestCreatedAt db.expense_request paid.expenseID) with
      | .error _ => (.err 500 ("Related expense request not found"),
          [.queryPaidByID id, .queryRequestCreatedAt paid.expenseID])
      | .ok createdAt =>
        let year := createdAt.year
        match scan f.onBudgetFetch
            (findBudget db.budget paid.unitID paid.category year) with
        | .error _ => (.err 500 ("Budget not found"),
            [.queryPaidByID id, .queryRequestCreatedAt paid.expenseID,
             .queryBudget paid.unitID paid.category year])
        | .ok budget =>
          match scan f.onSumQuery
              (some (sumSpent db.paid_expense paid.unitID paid.category year)) with
          | .error _ => (.err 500 ("Failed to calculate spent amount"),
              [.queryPaidByID id, .queryRequestCreatedAt paid.expenseID,
               .queryBudget paid.unitID paid.category year,
               .querySumSpent paid.unitID paid.category year])
          | .ok spent =>
            let rest := budget.budgetLimit - spent
            let budgetMax := budget.budgetLimit +
              budget.thresholdRatio * budget.budgetLimit
            (.ok { paidExpense := paid,
                   budget := { year := budget.year, limit := budget.budgetLimit,
                               threshold := budget.thresholdRatio, spent := spent,
                               rest := rest, budgetMax := budgetMax } },
             [.queryPaidByID id, .queryRequestCreatedAt paid.expenseID,
              .queryBudget paid.unitID paid.category year,
              .querySumSpent paid.unitID paid.category year])

/-- Shallow embedding of `(*Server).DeleteAnnouncement` (src/unnamed/
part_002, lines 157-184): it issues a write, grounding the `exec` half of
the store-operation semantics in the source. -/
def deleteAnnouncement (db : DB) (fault : Bool) (idStr : String) :
    Response × List StoreOp :=
  match goAtoi idStr with
  | none => (.err 400 ("Invalid ID"), [])
  | some id =>
    if fault then (.err 500 ("Database error"), [.execDeleteAnnouncement id])
    else if (db.announcement.filter (fun a => a.id == id)).length == 0 then
      (.err 404 ("Announcement not found"), [.execDeleteAnnouncement id])
    else (.noContent, [.execDeleteAnnouncement id])

/-- Characterization of the fault-free success path: when the identifier
parses, the payment row exists, the linked request row exists and the budget
row for (payment unit, payment category, request year) exists, the handler
returns the full success body and the trace of exactly four reads. -/
theorem payExpense_ok_eq (db : DB) (idStr : String) (id : Int)
    (paid : PaidExpense) (t : Time) (b : Budget)
    (hid : goAtoi idStr = some id)
    (hpaid : findPaid db.paid_expense id = some paid)
    (hreq : findRequestCreatedAt db.expense_request paid.expenseID = some t)
    (hbud : findBudget db.budget paid.unitID paid.category t.year = some b) :
    payExpense db Faults.clear idStr =
      (.ok { paidExpense := paid,
             budget := { year := b.year, limit := b.budgetLimit,
                         threshold := b.thresholdRatio,
                         spent := sumSpent db.paid_expense paid.unitID paid.category t.year,
                         rest := b.budgetLimit -
                           sumSpent db.paid_expense paid.unitID paid.category t.year,
                         budgetMax := b.budgetLimit + b.thresholdRatio * b.budgetLimit } },
       [.queryPaidByID id, .queryRequestCreatedAt paid.expenseID,
        .queryBudget paid.unitID paid.category t.year,
        .querySumSpent paid.unitID paid.category t.year]) := by
  simp [payExpense, Faults.clear, scan, hid, hpaid, hreq, hbud]

/- == Concrete fixtures used by witnesses and counterexamples == -/

/-- An instant in calendar year 2023. -/
def t2023 : Time := ⟨2023, 0⟩

/-- An instant in calendar year 2024. -/
def t2024 : Time := ⟨2024, 0⟩

/-- A payment recorded in 2024 against request 10. -/
def paid1 : PaidExpense :=
  { id := 1, expenseID := 10, unitID := "sales", category := "travel",
    amount := 200, createdAt := t2024 }

/-- The request behind `paid1`, created in 2024. -/
def req10 : ExpenseRequest :=
  { id := 10, userID := 7, unitID := "sales", amount := 200, category := "travel",
    createdAt := t2024, isFinalized := true }

/-- The 2024 budget row for (sales, travel): limit 1000, threshold 0.1. -/
def bud2024 : Budget :=
  { unitID := "sales", category := "travel", year := 2024,
    budgetLimit := 1000, thresholdRatio := 1/10 }

/-- A store with a complete dependency chain for payment 1. -/
def db1 : DB :=
  { user := [], unit := [], expense_category := [], expense_request := [req10],
    expense_activity := [], paid_expense := [paid1], budget := [bud2024],
    announcement := [] }

/-- C1: for every payment identifier whose dependency chain is complete —
the payment exists, its linked expense request exists, and a budget row
exists for the payment's unitID, category and the request-derived year —
`Evaluate` (PayExpense) returns `rest = limit - spent` and `budgetMax =
limit + threshold * limit`, where limit and threshold are the matched budget
row's budget_limit and threshold_ratio. -/
theorem payExpense_complete_chain_arithmetic (db : DB) (idStr : String) (id : Int)
    (paid : PaidExpense) (t : Time) (b : Budget)
    (hid : goAtoi idStr = some id)
    (hpaid : findPaid db.paid_expense id = some paid)
    (hreq : findRequestCreatedAt db.expense_request paid.expenseID = some t)
    (hbud : findBudget db.budget paid.unitID paid.category t.year = some b) :
    ∃ body : PayBody, (payExpense db Faults.clear idStr).1 = .ok body ∧
      body.budget.limit = b.budgetLimit ∧
      body.budget.threshold = b.thresholdRatio ∧
      body.budget.rest = b.budgetLimit - body.budget.spent ∧
      body.budget.budgetMax = b.budgetLimit + b.thresholdRatio * b.budgetLimit := by
  rw [payExpense_ok_eq db idStr id paid t b hid hpaid hreq hbud]
  exact ⟨_, rfl, rfl, rfl, rfl, rfl⟩

/-- C1 witness: the hypotheses and the conclusion hold at the concrete store
`db1`, payment 1 (spent = 200 against a limit of 1000 and threshold 0.1). -/
theorem payExpense_complete_chain_arithmetic_witness :
    goAtoi ("1") = some 1 ∧
    findPaid db1.paid_expense 1 = some paid1 ∧
    findRequestCreatedAt db1.expense_request paid1.expenseID = some t2024 ∧
    findBudget db1.budget paid1.unitID paid1.category t2024.year = some bud2024 ∧
    (∃ body : PayBody, (payExpense db1 Faults.clear "1").1 = .ok body ∧
      body.budget.limit = bud2024.budgetLimit ∧
      body.budget.threshold = bud2024.thresholdRatio ∧
      body.budget.rest = bud2024.budgetLimit - body.budget.spent ∧
      body.budget.budgetMax = bud2024.budgetLimit +
        bud2024.thresholdRatio * bud2024.budgetLimit) :=
  ⟨by decide, by decide,
   by simp [findRequestCreatedAt, db1, req10, paid1, List.find?],
   by simp [findBudget, db1, bud2024, paid1, t2024, List.find?],
   payExpense_complete_chain_arithmetic db1 "1" 1 paid1 t2024 bud2024
     (by decide) (by decide)
     (by simp [findRequestCreatedAt, db1, req10, paid1, List.find?])
     (by simp [findBudget, db1, bud2024, paid1, t2024, List.find?])⟩

/-- A payment recorded in 2023 whose linked request was created in 2024;
the request deliberately carries a different unit and category than the
payment. -/
def paid2 : PaidExpense :=
  { id := 2, expenseID := 20, unitID := "ops", category := "fuel",
    amount := 300, createdAt := t2023 }

/-- The request behind `paid2`, created in 2024, with unit and category
unrelated to the payment's. -/
def req20 : ExpenseRequest :=
  { id := 20, userID := 8, unitID := "hq", amount := 300, category := "misc",
    createdAt := t2024, isFinalized := false }

/-- The 2024 budget row for (ops, fuel): limit 1000, threshold 0.1. -/
def budOps : Budget :=
  { unitID := "ops", category := "fuel", year := 2024,
    budgetLimit := 1000, thresholdRatio := 1/10 }

/-- A store where the evaluated payment's own year (2023) differs from the
request-derived year (2024), so the aggregate row set is empty. -/
def db2 : DB :=
  { user := [], unit := [], expense_category := [], expense_request := [req20],
    expense_activity := [], paid_expense := [paid2], budget := [budOps],
    announcement := [] }

/-- C2: on every successful evaluation, spent is the sum of `amount` over
exactly the PaidExpense rows whose unitID and category equal the evaluated
payment's and whose own creation-timestamp year equals the request-derived
year: the aggregate filters on each payment's own timestamp, not on its
linked request's timestamp. -/
theorem payExpense_spent_own_year (db : DB) (idStr : String) (id : Int)
    (paid : PaidExpense) (t : Time) (b : Budget)
    (hid : goAtoi idStr = some id)
    (hpaid : findPaid db.paid_expense id = some paid)
    (hreq : findRequestCreatedAt db.expense_request paid.expenseID = some t)
    (hbud : findBudget db.budget paid.unitID paid.category t.year = some b) :
    ∃ body : PayBody, (payExpense db Faults.clear idStr).1 = .ok body ∧
      body.budget.spent =
        ((db.paid_expense.filter (fun p =>
            p.unitID == paid.unitID && p.category == paid.category &&
            p.createdAt.year == t.year)).map (fun p => p.amount)).sum := by
  rw [payExpense_ok_eq db idStr id paid t b hid hpaid hreq hbud]
  exact ⟨_, rfl, rfl⟩

/-- C2 witness: at `db1` the hypotheses hold and the aggregate sums the one
2024 payment, 200. -/
theorem payExpense_spent_own_year_witness :
    goAtoi ("1") = some 1 ∧
    findPaid db1.paid_expense 1 = some paid1 ∧
    findRequestCreatedAt db1.expense_request paid1.expenseID = some t2024 ∧
    findBudget db1.budget paid1.unitID paid1.category t2024.year = some bud2024 ∧
    (∃ body : PayBody, (payExpense db1 Faults.clear "1").1 = .ok body ∧
      body.budget.spent =
        ((db1.paid_expense.filter (fun p =>
            p.unitID == paid1.unitID && p.category == paid1.category &&
            p.createdAt.year == t2024.year)).map (fun p => p.amount)).sum) :=
  ⟨by decide, by decide,
   by simp [findRequestCreatedAt, db1, req10, paid1, List.find?],
   by simp [findBudget, db1, bud2024, paid1, t2024, List.find?],
   payExpense_spent_own_year db1 "1" 1 paid1 t2024 bud2024
     (by decide) (by decide)
     (by simp [findRequestCreatedAt, db1, req10, paid1, List.find?])
     (by simp [findBudget, db1, bud2024, paid1, t2024, List.find?])⟩

/-- C3: the fiscal year of the lookup is the calendar-year component of the
linked request's creation timestamp, and the budget row is selected by the
composite key (payment's unitID, payment's category, that year): the trace
records exactly that budget query, and the returned block carries the row so
selected. -/
theorem payExpense_budget_key (db : DB) (idStr : String) (id : Int)
    (paid : PaidExpense) (t : Time) (b : Budget)
    (hid : goAtoi idStr = some id)
    (hpaid : findPaid db.paid_expense id = some paid)
    (hreq : findRequestCreatedAt db.expense_request paid.expenseID = some t)
    (hbud : findBudget db.budget paid.unitID paid.category t.year = some b) :
    (payExpense db Faults.clear idStr).2 =
      [.queryPaidByID id, .queryRequestCreatedAt paid.expenseID,
       .queryBudget paid.unitID paid.category t.year,
       .querySumSpent paid.unitID paid.category t.year] ∧
    ∃ body : PayBody, (payExpense db Faults.clear idStr).1 = .ok body ∧
      body.budget.year = b.year ∧ body.budget.limit = b.budgetLimit ∧
      body.budget.threshold = b.thresholdRatio := by
  rw [payExpense_ok_eq db idStr id paid t b hid hpaid hreq hbud]
  exact ⟨rfl, _, rfl, rfl, rfl, rfl⟩

/-- C3 witness: at `db2` the request-derived year is 2024 although the
payment's own year is 2023 and the request's unit and category are
unrelated; the budget query still uses (ops, fuel, 2024). -/
theorem payExpense_budget_key_witness :
    goAtoi ("2") = some 2 ∧
    findPaid db2.paid_expense 2 = some paid2 ∧
    findRequestCreatedAt db2.expense_request paid2.expenseID = some t2024 ∧
    findBudget db2.budget paid2.unitID paid2.category t2024.year = some budOps ∧
    paid2.createdAt.year ≠ t2024.year ∧ req20.unitID ≠ paid2.unitID ∧
    ((payExpense db2 Faults.clear "2").2 =
      [.queryPaidByID 2, .queryRequestCreatedAt paid2.expenseID,
       .queryBudget paid2.unitID paid2.category t2024.year,
       .querySumSpent paid2.unitID paid2.category t2024.year] ∧
     ∃ body : PayBody, (payExpense db2 Faults.clear "2").1 = .ok body ∧
       body.budget.year = budOps.year ∧ body.budget.limit = budOps.budgetLimit ∧
       body.budget.threshold = budOps.thresholdRatio) :=
  ⟨by decide, by decide,
   by simp [findRequestCreatedAt, db2, req20, paid2, List.find?],
   by simp [findBudget, db2, budOps, paid2, t2024, List.find?],
   by decide, by decide,
   payExpense_budget_key db2 "2" 2 paid2 t2024 budOps
     (by decide) (by decide)
     (by simp [findRequestCreatedAt, db2, req20, paid2, List.find?])
     (by simp [findBudget, db2, budOps, paid2, t2024, List.find?])⟩

/-- C7: whenever the evaluated payment's own creation year equals the
matched year, that payment is itself among the rows the aggregate sums; and
evaluation is deterministic over an unchanged store: two evaluations of the
same payment yield the same spent. -/
theorem payExpense_sum_includes_self (db : DB) (idStr : String) (id : Int)
    (paid : PaidExpense) (t : Time) (b : Budget)
    (hid : goAtoi idStr = some id)
    (hpaid : findPaid db.paid_expense id = some paid)
    (hreq : findRequestCreatedAt db.expense_request paid.expenseID = some t)
    (hbud : findBudget db.budget paid.unitID paid.category t.year = some b)
    (hyear : paid.createdAt.year = t.year) :
    paid ∈ spentRows db.paid_expense paid.unitID paid.category t.year ∧
    ∀ body₁ body₂ : PayBody,
      (payExpense db Faults.clear idStr).1 = .ok body₁ →
      (payExpense db Faults.clear idStr).1 = .ok body₂ →
      body₁.budget.spent = body₂.budget.spent := by
  constructor
  · have hmem : paid ∈ db.paid_expense := List.mem_of_find?_eq_some hpaid
    exact List.mem_filter.mpr ⟨hmem, by simp [hyear]⟩
  · intro body₁ body₂ h₁ h₂
    rw [h₁] at h₂
    cases h₂
    rfl

/-- C7 witness: at `db1` payment 1's own year is the matched year 2024, it
appears among the summed rows, and two evaluations agree on spent. -/
theorem payExpense_sum_includes_self_witness :
    goAtoi ("1") = some 1 ∧
    findPaid db1.paid_expense 1 = some paid1 ∧
    findRequestCreatedAt db1.expense_request paid1.expenseID = some t2024 ∧
    findBudget db1.budget paid1.unitID paid1.category t2024.year = some bud2024 ∧
    paid1.createdAt.year = t2024.year ∧
    (paid1 ∈ spentRows db1.paid_expense paid1.unitID paid1.category t2024.year ∧
     ∀ body₁ body₂ : PayBody,
       (payExpense db1 Faults.clear "1").1 = .ok body₁ →
       (payExpense db1 Faults.clear "1").1 = .ok body₂ →
       body₁.budget.spent = body₂.budget.spent) :=
  ⟨by decide, by decide,
   by simp [findRequestCreatedAt, db1, req10, paid1, List.find?],
   by simp [findBudget, db1, bud2024, paid1, t2024, List.find?],
   by decide,
   payExpense_sum_includes_self db1 "1" 1 paid1 t2024 bud2024
     (by decide) (by decide)
     (by simp [findRequestCreatedAt, db1, req10, paid1, List.find?])
     (by simp [findBudget, db1, bud2024, paid1, t2024, List.find?])
     (by decide)⟩

/-- C10: when no paid_expense row matches the aggregate key — possible when
the evaluated payment's own creation year differs from the request-derived
year — COALESCE yields spent = 0 rather than an error, and the evaluation
still succeeds with rest = limit and the full response body. -/
theorem payExpense_empty_aggregate_success (db : DB) (idStr : String) (id : Int)
    (paid : PaidExpense) (t : Time) (b : Budget)
    (hid : goAtoi idStr = some id)
    (hpaid : findPaid db.paid_expense id = some paid)
    (hreq : findRequestCreatedAt db.expense_request paid.expenseID = some t)
    (hbud : findBudget db.budget paid.unitID paid.category t.year = some b)
    (hempty : spentRows db.paid_expense paid.unitID paid.category t.year = []) :
    (payExpense db Faults.clear idStr).1 =
      .ok { paidExpense := paid,
            budget := { year := b.year, limit := b.budgetLimit,
                        threshold := b.thresholdRatio, spent := 0,
                        rest := b.budgetLimit,
                        budgetMax := b.budgetLimit +
                          b.thresholdRatio * b.budgetLimit } } := by
  rw [payExpense_ok_eq db idStr id paid t b hid hpaid hreq hbud]
  simp [sumSpent, hempty]

/-- C10 witness: at `db2` the payment's own year 2023 differs from the
matched year 2024, the aggregate row set is empty, and the evaluation
succeeds with spent = 0 and rest = limit = 1000. -/
theorem payExpense_empty_aggregate_success_witness :
    goAtoi ("2") = some 2 ∧
    findPaid db2.paid_expense 2 = some paid2 ∧
    findRequestCreatedAt db2.expense_request paid2.expenseID = some t2024 ∧
    findBudget db2.budget paid2.unitID paid2.category t2024.year = some budOps ∧
    spentRows db2.paid_expense paid2.unitID paid2.category t2024.year = [] ∧
    (payExpense db2 Faults.clear "2").1 =
      .ok { paidExpense := paid2,
            budget := { year := budOps.year, limit := budOps.budgetLimit,
                        threshold := budOps.thresholdRatio, spent := 0,
                        rest := budOps.budgetLimit,
                        budgetMax := budOps.budgetLimit +
                          budOps.thresholdRatio * budOps.budgetLimit } } :=
  ⟨by decide, by decide,
   by simp [findRequestCreatedAt, db2, req20, paid2, List.find?],
   by simp [findBudget, db2, budOps, paid2, t2024, List.find?],
   by decide,
   payExpense_empty_aggregate_success db2 "2" 2 paid2 t2024 budOps
     (by decide) (by decide)
     (by simp [findRequestCreatedAt, db2, req20, paid2, List.find?])
     (by simp [findBudget, db2, budOps, paid2, t2024, List.find?])
     (by decide)⟩

/-- C6: `Evaluate` performs no writes: every operation in its store trace
is one of the four reads (the three record fetches and the aggregate sum),
and replaying the trace against the store leaves every table — all eight —
exactly as it was, whether the evaluation succeeds or fails. -/
theorem payExpense_readonly (db : DB) (f : Faults) (idStr : String) :
    ((payExpense db f idStr).2.all StoreOp.isRead) = true ∧
    runOps db (payExpense db f idStr).2 = db ∧
    ∀ op ∈ (payExpense db f idStr).2,
      (∃ i, op = .queryPaidByID i) ∨ (∃ i, op = .queryRequestCreatedAt i) ∨
      (∃ u c y, op = .queryBudget u c y) ∨ (∃ u c y, op = .querySumSpent u c y) := by
  unfold payExpense
  cases goAtoi idStr with
  | none => simp [runOps]
  | some id =>
    cases h₁ : scan f.onPaidFetch (findPaid db.paid_expense id) with
    | error e => simp [h₁, runOps, applyStoreOp, StoreOp.isRead]
    | ok paid =>
      cases h₂ : scan f.onRequestFetch
          (findRequestCreatedAt db.expense_request paid.expenseID) with
      | error e => simp [h₁, h₂, runOps, applyStoreOp, StoreOp.isRead]
      | ok t =>
        cases h₃ : scan f.onBudgetFetch
            (findBudget db.budget paid.unitID paid.category t.year) with
        | error e => simp [h₁, h₂, h₃, runOps, applyStoreOp, StoreOp.isRead]
        | ok b =>
          cases h₄ : scan f.onSumQuery
              (some (sumSpent db.paid_expense paid.unitID paid.category t.year)) with
          | error e => simp [h₁, h₂, h₃, h₄, runOps, applyStoreOp, StoreOp.isRead]
          | ok s => simp [h₁, h₂, h₃, h₄, runOps, applyStoreOp, StoreOp.isRead]

/-- C6 witness: at `db1` the trace of evaluating payment 1 is all reads,
replaying it leaves the store unchanged, and its first operation — the
payment fetch, which is in the trace — is one of the four permitted reads. -/
theorem payExpense_readonly_witness :
    ((payExpense db1 Faults.clear "1").2.all StoreOp.isRead) = true ∧
    runOps db1 (payExpense db1 Faults.clear "1").2 = db1 ∧
    (StoreOp.queryPaidByID 1 ∈ (payExpense db1 Faults.clear "1").2 ∧
     ((∃ i, StoreOp.queryPaidByID 1 = .queryPaidByID i) ∨
      (∃ i, StoreOp.queryPaidByID 1 = .queryRequestCreatedAt i) ∨
      (∃ u c y, StoreOp.queryPaidByID 1 = .queryBudget u c y) ∨
      (∃ u c y, StoreOp.queryPaidByID 1 = .querySumSpent u c y))) :=
  ⟨(payExpense_readonly db1 Faults.clear "1").1,
   (payExpense_readonly db1 Faults.clear "1").2.1,
   by decide,
   (payExpense_readonly db1 Faults.clear "1").2.2 (StoreOp.queryPaidByID 1)
     (by decide)⟩

/-- Spec-side description of the single reported failure: the first unmet
dependency in the fixed order identifier, payment, linked request, budget,
aggregate, paired with the status code and message the handler reports for
it; `none` when every dependency is met. -/
def firstFailure (db : DB) (f : Faults) (idStr : String) : Option (Nat × String) :=
  match goAtoi idStr with
  | none => some (400, "Invalid ID")
  | some id =>
    if f.onPaidFetch then some (404, "Paid expense not found")
    else
      match findPaid db.paid_expense id with
      | none => some (404, "Paid expense not found")
      | some paid =>
        if f.onRequestFetch then some (500, "Related expense request not found")
        else
          match findRequestCreatedAt db.expense_request paid.expenseID with
          | none => some (500, "Related expense request not found")
          | some t =>
            if f.onBudgetFetch then some (500, "Budget not found")
            else
              match findBudget db.budget paid.unitID paid.category t.year with
              | none => some (500, "Budget not found")
              | some _ =>
                if f.onSumQuery then some (500, "Failed to calculate spent amount")
                else none

/-- Shared characterization: the handler's response is an error exactly when
some dependency is unmet, and then it is the single status and message of
the first unmet dependency; it is a success body exactly when every
dependency is met. -/
theorem payExpense_matches_firstFailure (db : DB) (f : Faults) (idStr : String) :
    ((∃ body : PayBody, (payExpense db f idStr).1 = .ok body) ↔
      firstFailure db f idStr = none) ∧
    ∀ st : Nat, ∀ m : String,
      (payExpense db f idStr).1 = .err st m ↔
        firstFailure db f idStr = some (st, m) := by
  unfold payExpense firstFailure
  cases goAtoi idStr with
  | none => simp
  | some id =>
    cases hf₁ : f.onPaidFetch with
    | true => simp [scan, hf₁]
    | false =>
      cases hp : findPaid db.paid_expense id with
      | none => simp [scan, hf₁, hp]
      | some paid =>
        cases hf₂ : f.onRequestFetch with
        | true => simp [scan, hf₁, hf₂, hp]
        | false =>
          cases hr : findRequestCreatedAt db.expense_request paid.expenseID with
          | none => simp [scan, hf₁, hf₂, hp, hr]
          | some t =>
            cases hf₃ : f.onBudgetFetch with
            | true => simp [scan, hf₁, hf₂, hf₃, hp, hr]
            | false =>
              cases hb : findBudget db.budget paid.unitID paid.category t.year with
              | none => simp [scan, hf₁, hf₂, hf₃, hp, hr, hb]
              | some b =>
                cases hf₄ : f.onSumQuery with
                | true => simp [scan, hf₁, hf₂, hf₃, hf₄, hp, hr, hb]
                | false => simp [scan, hf₁, hf₂, hf₃, hf₄, hp, hr, hb]

/-- C5: the evaluation either fully succeeds or reports exactly one failure,
the one at the first unmet dependency in the fixed order payment, linked
request, budget, aggregate; an error response carries only a status and a
message, never any part of the success body. -/
theorem payExpense_single_failure (db : DB) (f : Faults) (idStr : String) :
    ((∃ body : PayBody, (payExpense db f idStr).1 = .ok body) ↔
      firstFailure db f idStr = none) ∧
    ∀ st : Nat, ∀ m : String,
      (payExpense db f idStr).1 = .err st m ↔
        firstFailure db f idStr = some (st, m) :=
  payExpense_matches_firstFailure db f idStr

/-- C5 witness: at `db1` the fault-free evaluation succeeds and
`firstFailure` is `none`; with the linked request removed, the single
reported failure is the 500 at the request step. -/
theorem payExpense_single_failure_witness :
    firstFailure db1 Faults.clear ("1") = none ∧
    (∃ body : PayBody, (payExpense db1 Faults.clear "1").1 = .ok body) ∧
    (payExpense { db1 with expense_request := [] } Faults.clear "1").1 =
      .err 500 ("Related expense request not found") :=
  ⟨by simp [firstFailure, Faults.clear, goAtoi, findPaid, findRequestCreatedAt,
      findBudget, db1, paid1, req10, bud2024, t2024, List.find?],
   (payExpense_single_failure db1 Faults.clear "1").1.mpr
     (by simp [firstFailure, Faults.clear, goAtoi, findPaid, findRequestCreatedAt,
        findBudget, db1, paid1, req10, bud2024, t2024, List.find?]),
   ((payExpense_single_failure { db1 with expense_request := [] }
        Faults.clear "1").2 500 ("Related expense request not found")).mpr
     (by simp [firstFailure, Faults.clear, goAtoi, findPaid, findRequestCreatedAt,
        db1, paid1, List.find?])⟩

/-- A store like `db1` but with no budget rows at all. -/
def db3 : DB :=
  { user := [], unit := [], expense_category := [], expense_request := [req10],
    expense_activity := [], paid_expense := [paid1], budget := [],
    announcement := [] }

/-- C4 counterexample: a store-level failure on the initial payment fetch
yields 404, not 500, even though the payment row exists — the handler does
not distinguish `sql.ErrNoRows` from other errors on its first query, so a
store failure can be reported as NotFound. -/
theorem payExpense_store_failure_404_counterexample :
    findPaid db1.paid_expense 1 = some paid1 ∧
    (payExpense db1 ⟨true, false, false, false⟩ "1").1 =
      .err 404 ("Paid expense not found") := by
  refine ⟨by decide, ?_⟩
  simp [payExpense, scan, show goAtoi ("1") = some 1 from by decide]

/-- C4 amended: a malformed identifier yields 400; any failure of the
initial payment fetch — an absent row or a store failure — yields 404; an
absent linked request, an absent budget row for the (unit, category, year)
key, or a store failure on the request, budget, or aggregate query yields
500. -/
theorem payExpense_status_mapping (db : DB) (f : Faults) (idStr : String) :
    (goAtoi idStr = none → (payExpense db f idStr).1 = .err 400 ("Invalid ID")) ∧
    (∀ id : Int, goAtoi idStr = some id →
      (f.onPaidFetch = true ∨ findPaid db.paid_expense id = none) →
      (payExpense db f idStr).1 = .err 404 ("Paid expense not found")) ∧
    (∀ id : Int, ∀ paid : PaidExpense, goAtoi idStr = some id →
      f.onPaidFetch = false → findPaid db.paid_expense id = some paid →
      (f.onRequestFetch = true ∨
        findRequestCreatedAt db.expense_request paid.expenseID = none) →
      (payExpense db f idStr).1 =
        .err 500 ("Related expense request not found")) ∧
    (∀ id : Int, ∀ paid : PaidExpense, ∀ t : Time, goAtoi idStr = some id →
      f.onPaidFetch = false → findPaid db.paid_expense id = some paid →
      f.onRequestFetch = false →
      findRequestCreatedAt db.expense_request paid.expenseID = some t →
      (f.onBudgetFetch = true ∨
        findBudget db.budget paid.unitID paid.category t.year = none) →
      (payExpense db f idStr).1 = .err 500 ("Budget not found")) ∧
    (∀ id : Int, ∀ paid : PaidExpense, ∀ t : Time, ∀ b : Budget,
      goAtoi idStr = some id →
      f.onPaidFetch = false → findPaid db.paid_expense id = some paid →
      f.onRequestFetch = false →
      findRequestCreatedAt db.expense_request paid.expenseID = some t →
      f.onBudgetFetch = false →
      findBudget db.budget paid.unitID paid.category t.year = some b →
      f.onSumQuery = true →
      (payExpense db f idStr).1 =
        .err 500 ("Failed to calculate spent amount")) := by
  refine ⟨fun h => by simp [payExpense, h], ?_, ?_, ?_, ?_⟩
  · rintro id hid (hf | hn)
    · simp [payExpense, hid, scan, hf]
    · cases hf : f.onPaidFetch <;> simp [payExpense, hid, scan, hf, hn]
  · rintro id paid hid hf₁ hp (hf | hn)
    · simp [payExpense, hid, scan, hf₁, hp, hf]
    · cases hf : f.onRequestFetch <;>
        simp [payExpense, hid, scan, hf₁, hp, hf, hn]
  · rintro id paid t hid hf₁ hp hf₂ hr (hf | hn)
    · simp [payExpense, hid, scan, hf₁, hp, hf₂, hr, hf]
    · cases hf : f.onBudgetFetch <;>
        simp [payExpense, hid, scan, hf₁, hp, hf₂, hr, hf, hn]
  · intro id paid t b hid hf₁ hp hf₂ hr hf₃ hb hf₄
    simp [payExpense, hid, scan, hf₁, hp, hf₂, hr, hf₃, hb, hf₄]

/-- C4 amended witness: each status class realized concretely: a
non-numeric id gives 400, an absent payment gives 404, a missing linked
request gives 500, a missing budget gives 500, and an aggregate-query store
fault gives 500. -/
theorem payExpense_status_mapping_witness :
    (goAtoi ("abc") = none ∧
      (payExpense db1 Faults.clear "abc").1 = .err 400 ("Invalid ID")) ∧
    (goAtoi ("9") = some 9 ∧ findPaid db1.paid_expense 9 = none ∧
      (payExpense db1 Faults.clear "9").1 =
        .err 404 ("Paid expense not found")) ∧
    (findRequestCreatedAt ({ db1 with expense_request := [] } :
        DB).expense_request paid1.expenseID = none ∧
      (payExpense { db1 with expense_request := [] } Faults.clear "1").1 =
        .err 500 ("Related expense request not found")) ∧
    (findBudget db3.budget paid1.unitID paid1.category t2024.year = none ∧
      (payExpense db3 Faults.clear "1").1 = .err 500 ("Budget not found")) ∧
    (payExpense db1 ⟨false, false, false, true⟩ "1").1 =
      .err 500 ("Failed to calculate spent amount") := by
  refine ⟨⟨by decide, ?_⟩, ⟨by decide, by decide, ?_⟩, ⟨by decide, ?_⟩,
    ⟨by decide, ?_⟩, ?_⟩
  · exact (payExpense_status_mapping db1 Faults.clear "abc").1 (by decide)
  · exact (payExpense_status_mapping db1 Faults.clear "9").2.1 9
      (by decide) (Or.inr (by decide))
  · exact (payExpense_status_mapping { db1 with expense_request := [] }
      Faults.clear "1").2.2.1 1 paid1 (by decide) (by decide) (by decide)
      (Or.inr (by decide))
  · exact (payExpense_status_mapping db3 Faults.clear "1").2.2.2.1 1 paid1
      t2024 (by decide) (by decide) (by decide) (by decide)
      (by simp [findRequestCreatedAt, db3, req10, paid1, List.find?])
      (Or.inr (by decide))
  · exact (payExpense_status_mapping db1 ⟨false, false, false, true⟩
      "1").2.2.2.2 1 paid1 t2024 bud2024 (by decide) (by decide) (by decide)
      (by decide)
      (by simp [findRequestCreatedAt, db1, req10, paid1, List.find?])
      (by decide)
      (by simp [findBudget, db1, bud2024, paid1, t2024, List.find?])
      (by decide)

/-- Agreement of two request tables on the fields the evaluation can read:
row for row, the same id and the same creation timestamp; every other field
(userID, unitID, amount, category, isFinalized) is unconstrained. -/
def RequestsAgree (l₁ l₂ : List ExpenseRequest) : Prop :=
  List.Forall₂ (fun r₁ r₂ => r₁.id = r₂.id ∧ r₁.createdAt = r₂.createdAt) l₁ l₂

/-- The request query reads only id (to match) and created_at (to scan), so
it cannot tell two agreeing tables apart. -/
theorem findRequestCreatedAt_eq_of_agree (l₁ l₂ : List ExpenseRequest)
    (h : RequestsAgree l₁ l₂) (id : Int) :
    findRequestCreatedAt l₁ id = findRequestCreatedAt l₂ id := by
  induction h with
  | nil => rfl
  | cons hr htl ih =>
    unfold findRequestCreatedAt at *
    simp only [List.find?]
    rw [hr.1]
    cases hb : _ == id with
    | true => simp [hr.2]
    | false => exact ih

/-- C8: the evaluation consumes only the creation timestamp of linked
expense requests: two stores with the same paid_expense and budget tables
whose request tables agree on id and createdAt — differing arbitrarily in
userID, unitID, amount, category and isFinalized — produce identical
responses and traces for every payment id and fault pattern. -/
theorem payExpense_request_noninterference (db₁ db₂ : DB) (f : Faults)
    (idStr : String)
    (hpaid : db₁.paid_expense = db₂.paid_expense)
    (hbud : db₁.budget = db₂.budget)
    (hreq : RequestsAgree db₁.expense_request db₂.expense_request) :
    payExpense db₁ f idStr = payExpense db₂ f idStr := by
  have hfr : ∀ i : Int, findRequestCreatedAt db₁.expense_request i =
      findRequestCreatedAt db₂.expense_request i :=
    fun i => findRequestCreatedAt_eq_of_agree _ _ hreq i
  simp only [payExpense, hpaid, hbud, hfr]

/-- The request behind `paid1` with every field the evaluation does not
read changed, but the same id and creation timestamp. -/
def req10Alt : ExpenseRequest :=
  { id := 10, userID := 99, unitID := "other", amount := 5, category := "misc",
    createdAt := t2024, isFinalized := false }

/-- A store identical to `db1` except for the non-consumed fields of the
linked request. -/
def db1Alt : DB :=
  { user := [], unit := [], expense_category := [],
    expense_request := [req10Alt], expense_activity := [],
    paid_expense := [paid1], budget := [bud2024], announcement := [] }

/-- C8 witness: `db1` and `db1Alt` agree on id and createdAt of the linked
request while every other request field differs, and the evaluation of
payment 1 is identical on both. -/
theorem payExpense_request_noninterference_witness :
    db1.paid_expense = db1Alt.paid_expense ∧
    db1.budget = db1Alt.budget ∧
    RequestsAgree db1.expense_request db1Alt.expense_request ∧
    payExpense db1 Faults.clear "1" = payExpense db1Alt Faults.clear "1" :=
  ⟨rfl, rfl, List.Forall₂.cons ⟨rfl, rfl⟩ List.Forall₂.nil,
   payExpense_request_noninterference db1 db1Alt Faults.clear "1" rfl rfl
     (List.Forall₂.cons ⟨rfl, rfl⟩ List.Forall₂.nil)⟩

/-- Two payments in 2024 against request 30 summing to 1200. -/
def paid3 : PaidExpense :=
  { id := 3, expenseID := 30, unitID := "sales", category := "travel",
    amount := 700, createdAt := t2024 }

/-- Second 2024 payment against request 30. -/
def paid4 : PaidExpense :=
  { id := 4, expenseID := 30, unitID := "sales", category := "travel",
    amount := 500, createdAt := t2024 }

/-- The request behind `paid3` and `paid4`, created in 2024. -/
def req30 : ExpenseRequest :=
  { id := 30, userID := 7, unitID := "sales", amount := 1200,
    category := "travel", createdAt := t2024, isFinalized := true }

/-- A store where 1200 has been spent against the 1000 budget. -/
def db4 : DB :=
  { user := [], unit := [], expense_category := [], expense_request := [req30],
    expense_activity := [], paid_expense := [paid3, paid4], budget := [bud2024],
    announcement := [] }

/-- C9: the budget arithmetic is exact on the spec's example inputs and
rest may be negative: with spent = 0, limit = 1000, threshold = 0.1 the
evaluation reports rest = 1000 and budgetMax = 1100; with spent = 1200 it
reports rest = -200 and budgetMax = 1100 — exact rational arithmetic, no
rounding. -/
theorem payExpense_numeric_examples :
    ((payExpense db2 Faults.clear "2").1 =
      .ok { paidExpense := paid2,
            budget := { year := 2024, limit := 1000, threshold := 1/10,
                        spent := 0, rest := 1000, budgetMax := 1100 } }) ∧
    ((payExpense db4 Faults.clear "3").1 =
      .ok { paidExpense := paid3,
            budget := { year := 2024, limit := 1000, threshold := 1/10,
                        spent := 1200, rest := -200, budgetMax := 1100 } }) := by
  constructor
  · rw [payExpense_ok_eq db2 "2" 2 paid2 t2024 budOps (by decide) (by decide)
      (by simp [findRequestCreatedAt, db2, req20, paid2, List.find?])
      (by simp [findBudget, db2, budOps, paid2, t2024, List.find?])]
    simp only [budOps, sumSpent, spentRows, db2, paid2, t2023, t2024]
    norm_num [List.filter, show ((2023 : Int) == 2024) = false from by decide]
  · rw [payExpense_ok_eq db4 "3" 3 paid3 t2024 bud2024 (by decide) (by decide)
      (by simp [findRequestCreatedAt, db4, req30, paid3, List.find?])
      (by simp [findBudget, db4, bud2024, paid3, t2024, List.find?])]
    simp only [bud2024, sumSpent, spentRows, db4, paid3, paid4, t2024]
    norm_num [List.filter]

end EMS
